import Mathlib

/-!
Verification of the ROMA-Azure routing and pipeline core.

Shallow embedding of `src/router.py` (the intelligent model router) and
`examples/demo_complete.py` (the ROMA pipeline driver), together with
theorems settling the specification claims about them.
-/

set_option linter.unusedVariables false

/-! ## Part 1: the router (`src/router.py`) -/

/-- `TaskComplexity` enum, router.py lines 12-18. -/
inductive TaskComplexity
  | ultra | high | medium | low | trivial
deriving DecidableEq, Fintype, Repr

/-- `TaskPriority` enum, router.py lines 21-27. -/
inductive TaskPriority
  | quality | speed | balanced | cost | reasoning
deriving DecidableEq, Fintype, Repr

/-- `TaskDomain` enum, router.py lines 30-37. -/
inductive TaskDomain
  | code | document | creative | analysis | general | realtime
deriving DecidableEq, Fintype, Repr

/-- `ModelConfig` dataclass, router.py lines 40-50.  The Python
`temperature` is a float; all temperatures in the registry are exact
decimals, embedded as rationals. -/
structure ModelConfig where
  name : String
  provider : String
  temperature : Rat
  cache : Bool := true
  max_tokens : Option Nat := none
  api_base : Option String := none
  api_key : Option String := none
  api_version : Option String := none
deriving DecidableEq, Repr

/-- The `azure_config` dict passed into `IntelligentRouter.__init__` and
spread (`**self.azure_config`) into every registry entry; in every use in
the repo it carries exactly these three keys. -/
structure AzureConfig where
  api_base : Option String := none
  api_key : Option String := none
  api_version : Option String := none
deriving DecidableEq, Repr

/-- Python `dict` lookup on the association lists used below (all the
dicts in the source are built with distinct literal keys, so first-match
association-list lookup is exact). -/
def lookupA {α β : Type} [BEq α] : List (α × β) → α → Option β
  | [], _ => none
  | (k, v) :: rest, key => if k == key then some v else lookupA rest key

/-- `self.model_registry`, router.py lines 61-100: five named model
configurations, each receiving the azure credential bundle. -/
def model_registry (az : AzureConfig) : List (String × ModelConfig) :=
  [ ("gpt5-chat",
      { name := "gpt-5-chat", provider := "azure", temperature := 1,
        max_tokens := some 16000,
        api_base := az.api_base, api_key := az.api_key, api_version := az.api_version }),
    ("deepseek-r1",
      { name := "DeepSeek-R1-0528", provider := "azure", temperature := 0.4,
        max_tokens := some 250000,
        api_base := az.api_base, api_key := az.api_key, api_version := az.api_version }),
    ("gpt4o",
      { name := "gpt-4o", provider := "azure", temperature := 0.7,
        api_base := az.api_base, api_key := az.api_key, api_version := az.api_version }),
    ("grok-fast",
      { name := "grok-4-fast-reasoning", provider := "azure", temperature := 0.6,
        max_tokens := some 250000,
        api_base := az.api_base, api_key := az.api_key, api_version := az.api_version }),
    ("codestral",
      { name := "Codestral-2501", provider := "azure", temperature := 0.3,
        api_base := az.api_base, api_key := az.api_key, api_version := az.api_version }) ]

/-- The registry's key set, independent of the credential bundle. -/
def registryKeys : List String :=
  ["gpt5-chat", "deepseek-r1", "gpt4o", "grok-fast", "codestral"]

/-- `IntelligentRouter._build_routing_matrix`, router.py lines 105-135:
the sparse Complexity -> Priority -> Domain -> key decision matrix. -/
def routing_matrix :
    List (TaskComplexity × List (TaskPriority × List (TaskDomain × String))) :=
  [ (TaskComplexity.ultra,
      [ (TaskPriority.quality,
          [ (TaskDomain.code, "codestral"),
            (TaskDomain.analysis, "gpt5-chat"),
            (TaskDomain.general, "gpt5-chat") ]),
        (TaskPriority.reasoning,
          [ (TaskDomain.code, "deepseek-r1"),
            (TaskDomain.analysis, "deepseek-r1"),
            (TaskDomain.general, "gpt5-chat") ]) ]),
    (TaskComplexity.high,
      [ (TaskPriority.quality,
          [ (TaskDomain.code, "codestral"),
            (TaskDomain.analysis, "gpt4o"),
            (TaskDomain.general, "gpt4o") ]),
        (TaskPriority.speed,
          [ (TaskDomain.general, "grok-fast") ]) ]),
    (TaskComplexity.medium,
      [ (TaskPriority.balanced,
          [ (TaskDomain.general, "gpt4o") ]) ]) ]

/-- Key resolution inside `IntelligentRouter.get_model`, router.py lines
145-152: `self.routing_matrix[complexity][priority].get(domain,
self.routing_matrix[complexity][priority].get(TaskDomain.GENERAL, "gpt4o"))`
with a `KeyError` handler (triggered by a missing complexity or priority
level) yielding `"gpt4o"`. -/
def resolve_model_key (complexity : TaskComplexity) (priority : TaskPriority)
    (domain : TaskDomain) : String :=
  match lookupA routing_matrix complexity with
  | none => "gpt4o"
  | some byPriority =>
    match lookupA byPriority priority with
    | none => "gpt4o"
    | some byDomain =>
      match lookupA byDomain domain with
      | some key => key
      | none =>
        match lookupA byDomain TaskDomain.general with
        | some key => key
        | none => "gpt4o"

/-- The matrix entry `routing_matrix[complexity][priority][domain]` when
every level is present. -/
def matrixEntry (complexity : TaskComplexity) (priority : TaskPriority)
    (domain : TaskDomain) : Option String :=
  (lookupA routing_matrix complexity).bind fun byPriority =>
    (lookupA byPriority priority).bind fun byDomain =>
      lookupA byDomain domain

/-- Spec-side restatement of the routing fallback, written from the
spec's words (section 4.2): take `matrix[complexity][priority][domain]`
when that entry exists, else the general entry of the same
(complexity, priority) pair when it exists, else the fixed default
`"gpt4o"`.  Kept separate from `resolve_model_key`, which is translated
from the code, so the two can be compared. -/
def resolve_spec_fallback (complexity : TaskComplexity) (priority : TaskPriority)
    (domain : TaskDomain) : String :=
  match matrixEntry complexity priority domain with
  | some key => key
  | none =>
    match matrixEntry complexity priority TaskDomain.general with
    | some key => key
    | none => "gpt4o"

theorem resolve_mem_registryKeys (c : TaskComplexity) (p : TaskPriority)
    (d : TaskDomain) : resolve_model_key c p d ∈ registryKeys := by
  revert c p d; decide

theorem registryKeys_lookup (az : AzureConfig) (k : String)
    (hk : k ∈ registryKeys) : ∃ cfg, lookupA (model_registry az) k = some cfg := by
  simp only [registryKeys, List.mem_cons, List.not_mem_nil, or_false] at hk
  rcases hk with rfl | rfl | rfl | rfl | rfl <;> exact ⟨_, rfl⟩

/-- C1: for every (complexity, priority, domain) triple from the closed
enumerations, the key resolved by `get_model` is present in the model
registry — routing is a total function and the subsequent registry lookup
`self.model_registry[model_key]` cannot raise. -/
theorem C1_routing_total (az : AzureConfig) (c : TaskComplexity)
    (p : TaskPriority) (d : TaskDomain) :
    ∃ cfg, lookupA (model_registry az) (resolve_model_key c p d) = some cfg :=
  registryKeys_lookup az _ (resolve_mem_registryKeys c p d)

/-- C1 witness: the theorem instantiated at a concrete configuration and
triple. -/
theorem C1_routing_total_witness :
    ∃ cfg, lookupA (model_registry {}) (resolve_model_key
      TaskComplexity.ultra TaskPriority.reasoning TaskDomain.analysis) = some cfg :=
  C1_routing_total {} TaskComplexity.ultra TaskPriority.reasoning TaskDomain.analysis

/-- C2: key resolution follows the three-level fallback exactly: the
(complexity, priority, domain) matrix entry when present, otherwise the
(complexity, priority, general) entry when present, otherwise the fixed
default `"gpt4o"`. -/
theorem C2_three_level_fallback (c : TaskComplexity) (p : TaskPriority)
    (d : TaskDomain) : resolve_model_key c p d = resolve_spec_fallback c p d := by
  revert c p d; decide

/-! ## Part 2: lenient boolean parsing (`demo_complete.py` lines 105, 154) -/

/-- Python `str.lower()` on the character sequence of a string. -/
def pyLower (s : String) : String := ⟨s.data.map Char.toLower⟩

/-- Boolean test that `needle` is an initial segment of `l`. -/
def startsWithChars : List Char → List Char → Bool
  | _, [] => true
  | [], _ :: _ => false
  | c :: cs, n :: ns => c == n && startsWithChars cs ns

/-- Boolean substring containment on character lists, the semantics of
Python's `needle in hay` on strings. -/
def containsChars (needle : List Char) : List Char → Bool
  | [] => startsWithChars [] needle
  | c :: cs => startsWithChars (c :: cs) needle || containsChars needle cs

/-- Python `needle in hay` for strings. -/
def pyContains (hay needle : String) : Bool := containsChars needle.data hay.data

/-- The boolean coercion applied to backend text at demo_complete.py
lines 105 and 154: `"true" in text.lower()`. -/
def parse_bool (text : String) : Bool := pyContains (pyLower text) "true"

/-- Spec-side notion: `needle` occurs as a contiguous substring of `hay`. -/
def ContainsSubstring (hay needle : String) : Prop :=
  ∃ pre post : List Char, hay.data = pre ++ needle.data ++ post

theorem startsWithChars_iff (l n : List Char) :
    startsWithChars l n = true ↔ ∃ rest, l = n ++ rest := by
  induction n generalizing l with
  | nil => simpa [startsWithChars] using ⟨l, rfl⟩
  | cons nh nt ih =>
    cases l with
    | nil => simp [startsWithChars]
    | cons c cs =>
      simp only [startsWithChars, Bool.and_eq_true, beq_iff_eq, ih, List.cons_append,
        List.cons.injEq]
      constructor
      · rintro ⟨rfl, rest, rfl⟩; exact ⟨rest, rfl, rfl⟩
      · rintro ⟨rest, rfl, rfl⟩; exact ⟨rfl, rest, rfl⟩

theorem containsChars_iff (n l : List Char) :
    containsChars n l = true ↔ ∃ pre post, l = pre ++ n ++ post := by
  induction l with
  | nil =>
    simp only [containsChars, startsWithChars_iff]
    constructor
    · rintro ⟨rest, h⟩
      rcases List.append_eq_nil.mp h.symm with ⟨rfl, rfl⟩
      exact ⟨[], [], rfl⟩
    · rintro ⟨pre, post, h⟩
      rcases List.append_eq_nil.mp h.symm with ⟨h1, rfl⟩
      rcases List.append_eq_nil.mp h1 with ⟨rfl, rfl⟩
      exact ⟨[], rfl⟩
  | cons c cs ih =>
    simp only [containsChars, Bool.or_eq_true, startsWithChars_iff, ih]
    constructor
    · rintro (⟨rest, h⟩ | ⟨pre, post, rfl⟩)
      · exact ⟨[], rest, by simpa using h⟩
      · exact ⟨c :: pre, post, by simp⟩
    · rintro ⟨pre, post, h⟩
      cases pre with
      | nil => exact Or.inl ⟨post, by simpa using h⟩
      | cons p ps =>
        rcases List.cons.injEq .. ▸ h with ⟨rfl, h2⟩
        exact Or.inr ⟨ps, post, by simpa using h2⟩

theorem pyContains_iff (hay needle : String) :
    pyContains hay needle = true ↔ ContainsSubstring hay needle :=
  containsChars_iff needle.data hay.data

/-- C3: a backend text parses to `true` exactly when its lower-cased form
contains the substring `"true"`; in particular the four example inputs
parse as the spec states. -/
theorem C3_bool_parsing :
    (∀ text : String, parse_bool text = true ↔ ContainsSubstring (pyLower text) "true") ∧
    parse_bool "True, because..." = true ∧
    parse_bool "The result is false" = false ∧
    parse_bool "TRUE" = true ∧
    parse_bool "" = false :=
  ⟨fun text => pyContains_iff (pyLower text) "true", by decide, by decide, by decide, by decide⟩

/-! ## Part 3: the client cache (`router.py` lines 56-58, 154-172) -/

/-- State of one `IntelligentRouter` instance: `self._model_cache`
(router.py line 58), mapping each model key to the identity of the
`dspy.LM` client constructed for it, together with an allocation counter
giving each newly constructed client a fresh identity. -/
structure RouterState where
  cache : List (String × Nat)
  next : Nat
deriving DecidableEq, Repr

def RouterState.init : RouterState := ⟨[], 0⟩

/-- `IntelligentRouter.get_model`, router.py lines 137-172: resolve the
key; if the key is in `self._model_cache` return the cached client,
otherwise construct a client (modelled by a fresh identity), store it in
the cache, and return it. -/
def get_model (c : TaskComplexity) (p : TaskPriority) (d : TaskDomain)
    (s : RouterState) : Nat × RouterState :=
  match lookupA s.cache (resolve_model_key c p d) with
  | some handle => (handle, s)
  | none =>
    (s.next, ⟨s.cache ++ [(resolve_model_key c p d, s.next)], s.next + 1⟩)

abbrev RouteRequest := TaskComplexity × TaskPriority × TaskDomain

/-- A sequence of `get_model` calls on one router instance, recording for
each call the resolved key and the returned client handle, together with
the final router state. -/
def runRouter : List RouteRequest → RouterState → List (String × Nat) × RouterState
  | [], s => ([], s)
  | (c, p, d) :: rest, s =>
    let r := get_model c p d s
    let t := runRouter rest r.2
    ((resolve_model_key c p d, r.1) :: t.1, t.2)

/-- Cache well-formedness: keys are distinct, the handles are exactly
`0, 1, ..., size - 1` in insertion order, and the allocation counter
equals the cache size. -/
def cacheWF (s : RouterState) : Prop :=
  (s.cache.map Prod.fst).Nodup ∧
    s.cache.map Prod.snd = List.range s.cache.length ∧
    s.next = s.cache.length

theorem cacheWF_init : cacheWF RouterState.init :=
  ⟨List.nodup_nil, rfl, rfl⟩

theorem lookupA_append {α β : Type} [BEq α] (l₁ l₂ : List (α × β)) (k : α) :
    lookupA (l₁ ++ l₂) k =
      match lookupA l₁ k with
      | some v => some v
      | none => lookupA l₂ k := by
  induction l₁ with
  | nil => simp [lookupA]
  | cons hd tl ih =>
    obtain ⟨k₀, v₀⟩ := hd
    simp only [List.cons_append, lookupA]
    split <;> simp [ih]

theorem lookupA_eq_none_iff {α β : Type} [BEq α] [LawfulBEq α]
    (l : List (α × β)) (k : α) :
    lookupA l k = none ↔ k ∉ l.map Prod.fst := by
  induction l with
  | nil => simp [lookupA]
  | cons hd tl ih =>
    obtain ⟨k₀, v₀⟩ := hd
    simp only [lookupA, List.map_cons, List.mem_cons]
    by_cases hk : k₀ == k
    · simp [hk, eq_of_beq hk]
    · have hne : ¬ k = k₀ := fun h => hk (by simp [h])
      simp [hk, hne, ih]

theorem mem_of_lookupA {α β : Type} [BEq α] [LawfulBEq α]
    (l : List (α × β)) (k : α) (v : β) (h : lookupA l k = some v) : (k, v) ∈ l := by
  induction l with
  | nil => simp [lookupA] at h
  | cons hd tl ih =>
    obtain ⟨k₀, v₀⟩ := hd
    simp only [lookupA] at h
    by_cases hk : k₀ == k
    · rw [if_pos hk] at h
      cases h
      have hkk : k₀ = k := eq_of_beq hk
      subst hkk
      exact List.mem_cons_self _ _
    · rw [if_neg hk] at h
      exact List.mem_cons_of_mem _ (ih h)

theorem get_model_wf (c : TaskComplexity) (p : TaskPriority) (d : TaskDomain)
    (s : RouterState) (hs : cacheWF s) : cacheWF (get_model c p d s).2 := by
  obtain ⟨hnd, hsnd, hnext⟩ := hs
  cases hcase : lookupA s.cache (resolve_model_key c p d) with
  | some h => exact ⟨by simp [get_model, hcase, hnd], by simp [get_model, hcase, hsnd],
      by simp [get_model, hcase, hnext]⟩
  | none =>
    refine ⟨?_, ?_, ?_⟩
    · simp only [get_model, hcase, List.map_append]
      refine List.Nodup.append hnd (List.nodup_singleton _) ?_
      intro a ha hb
      simp only [List.map_cons, List.map_nil, List.mem_singleton] at hb
      subst hb
      exact (lookupA_eq_none_iff _ _).mp hcase ha
    · simp [get_model, hcase, List.map_append, hsnd, hnext, List.range_succ]
    · simp [get_model, hcase, hnext]

theorem get_model_mono (c : TaskComplexity) (p : TaskPriority) (d : TaskDomain)
    (s : RouterState) (k : String) (h : Nat)
    (hk : lookupA s.cache k = some h) :
    lookupA (get_model c p d s).2.cache k = some h := by
  cases hcase : lookupA s.cache (resolve_model_key c p d) with
  | some h₀ => simpa [get_model, hcase] using hk
  | none => simp [get_model, hcase, lookupA_append, hk]

theorem get_model_lookup (c : TaskComplexity) (p : TaskPriority) (d : TaskDomain)
    (s : RouterState) :
    lookupA (get_model c p d s).2.cache (resolve_model_key c p d) =
      some (get_model c p d s).1 := by
  cases hcase : lookupA s.cache (resolve_model_key c p d) with
  | some h₀ => simpa [get_model, hcase] using hcase
  | none => simp [get_model, hcase, lookupA_append, lookupA]

theorem runRouter_wf (reqs : List RouteRequest) (s : RouterState)
    (hs : cacheWF s) : cacheWF (runRouter reqs s).2 := by
  induction reqs generalizing s with
  | nil => exact hs
  | cons r rest ih =>
    obtain ⟨c, p, d⟩ := r
    exact ih _ (get_model_wf c p d s hs)

theorem runRouter_mono (reqs : List RouteRequest) (s : RouterState)
    (k : String) (h : Nat) (hk : lookupA s.cache k = some h) :
    lookupA (runRouter reqs s).2.cache k = some h := by
  induction reqs generalizing s with
  | nil => exact hk
  | cons r rest ih =>
    obtain ⟨c, p, d⟩ := r
    exact ih _ (get_model_mono c p d s k h hk)

theorem runRouter_trace_lookup (reqs : List RouteRequest) (s : RouterState)
    (e : String × Nat) (he : e ∈ (runRouter reqs s).1) :
    lookupA (runRouter reqs s).2.cache e.1 = some e.2 := by
  induction reqs generalizing s with
  | nil => simp [runRouter] at he
  | cons r rest ih =>
    obtain ⟨c, p, d⟩ := r
    simp only [runRouter, List.mem_cons] at he
    rcases he with rfl | he
    · exact runRouter_mono rest _ _ _ (get_model_lookup c p d s)
    · exact ih _ he

theorem cacheWF_lookup_iff (s : RouterState) (hs : cacheWF s)
    (k₁ k₂ : String) (h₁ h₂ : Nat)
    (hl₁ : lookupA s.cache k₁ = some h₁) (hl₂ : lookupA s.cache k₂ = some h₂) :
    (k₁ = k₂ ↔ h₁ = h₂) := by
  obtain ⟨hnd, hsnd, hnext⟩ := hs
  constructor
  · rintro rfl
    rw [hl₁] at hl₂
    exact Option.some_inj.mp hl₂
  · intro hh
    subst hh
    have hm₁ := mem_of_lookupA _ _ _ hl₁
    have hm₂ := mem_of_lookupA _ _ _ hl₂
    have hsndnd : (s.cache.map Prod.snd).Nodup := by
      rw [hsnd]; exact List.nodup_range _
    have := List.inj_on_of_nodup_map hsndnd hm₁ hm₂ rfl
    exact congrArg Prod.fst this

/-- C4: over any sequence of `get_model` calls on one router instance,
two calls resolving to the same model key return the identical client
handle, and two calls resolving to distinct keys return distinct handles
(key equality coincides with handle equality on the call trace). -/
theorem C4_cache_singleton (reqs : List RouteRequest) (e₁ e₂ : String × Nat)
    (h₁ : e₁ ∈ (runRouter reqs RouterState.init).1)
    (h₂ : e₂ ∈ (runRouter reqs RouterState.init).1) :
    (e₁.1 = e₂.1 ↔ e₁.2 = e₂.2) :=
  cacheWF_lookup_iff _ (runRouter_wf reqs _ cacheWF_init) _ _ _ _
    (runRouter_trace_lookup reqs _ e₁ h₁) (runRouter_trace_lookup reqs _ e₂ h₂)

/-- C4 witness: a concrete three-call sequence; the first and third calls
resolve to distinct keys, and the theorem yields that their handles
differ (both sides of the iff are false). -/
theorem C4_cache_singleton_witness :
    (("deepseek-r1", 0) ∈ (runRouter
        [(TaskComplexity.ultra, TaskPriority.reasoning, TaskDomain.code),
         (TaskComplexity.ultra, TaskPriority.reasoning, TaskDomain.analysis),
         (TaskComplexity.medium, TaskPriority.balanced, TaskDomain.general)]
        RouterState.init).1) ∧
    ((("deepseek-r1" : String) = "gpt4o") ↔ ((0 : Nat) = 1)) :=
  ⟨by decide,
    C4_cache_singleton
      [(TaskComplexity.ultra, TaskPriority.reasoning, TaskDomain.code),
       (TaskComplexity.ultra, TaskPriority.reasoning, TaskDomain.analysis),
       (TaskComplexity.medium, TaskPriority.balanced, TaskDomain.general)]
      ("deepseek-r1", 0) ("gpt4o", 1) (by decide) (by decide)⟩

/-! ## Part 4: the ROMA pipeline (`examples/demo_complete.py` lines 65-160) -/

/-- Output fields of `AtomizerSignature` (demo_complete.py lines 26-30),
as produced by the LM backend: free text per field. -/
structure AtomizedOut where
  is_atomic : String
  reasoning : String
deriving DecidableEq, Repr

/-- Output fields of `PlannerSignature` (demo_complete.py lines 33-37). -/
structure PlanOut where
  subtasks : List String
  strategy : String
deriving DecidableEq, Repr

/-- Output fields of `VerifierSignature` (demo_complete.py lines 53-58). -/
structure VerifyOut where
  is_valid : String
  feedback : String
deriving DecidableEq, Repr

/-- The external LM backend behind the five DSPy modules of
demo_complete.py lines 93-97: each stage maps its input fields to output
fields.  `executor` maps `task` to `result`, `aggregator` maps
`(original_goal, subtask_results)` to `synthesized_result`. -/
structure Backend where
  atomizer : String → AtomizedOut
  planner : String → PlanOut
  executor : String → String
  aggregator : String → String → String
  verifier : String → String → VerifyOut

/-- Python string slicing `s[:n]`. -/
def pyTake (s : String) (n : Nat) : String := ⟨s.data.take n⟩

/-- `sample_subtasks`, demo_complete.py lines 125-129: the fixed subtask
list the demo executes (independently of the Planner's output). -/
def sample_subtasks : List String :=
  ["Investigar información relevante",
   "Analizar datos y tendencias",
   "Generar conclusiones"]

/-- `formatted_results`, demo_complete.py lines 138-141: each subtask
result is rendered as a numbered block with the result cut to its first
200 characters and `"..."` appended, and the blocks are joined by blank
lines. -/
def formatResults (rs : List (String × String)) : String :=
  String.intercalate "\n\n" (rs.enum.map fun p =>
    "Subtarea " ++ toString (p.1 + 1) ++ ": " ++ p.2.1 ++
      "\nResultado: " ++ pyTake p.2.2 200 ++ "...")

/-- One LM-module invocation performed by the pipeline, with the inputs
it was given. -/
inductive Call
  | atomize (goal : String)
  | plan (goal : String)
  | execute (task : String)
  | aggregate (original_goal : String) (subtask_results : String)
  | verify (goal : String) (result : String)
deriving DecidableEq, Repr

/-- An entry of `results["steps"]` (demo_complete.py lines 107, 115, 121). -/
inductive Step
  | atomizerStep (is_atomic : Bool)
  | plannerStep (strategy : String)
  | executorStep (result : String)
deriving DecidableEq, Repr

/-- The value built by `solve_with_roma`: the `results` dict together
with the structured `subtask_results` list of the non-atomic branch and
the trace of module invocations. -/
structure RomaOutput where
  goal : String
  steps : List Step
  final_result : String
  is_valid : Bool
  subtask_results : List (String × String)
  calls : List Call
deriving DecidableEq, Repr

/-- `solve_with_roma`, demo_complete.py lines 65-160: Atomizer; then
either a single Executor call on the goal (atomic branch) or the
Planner followed by one Executor call per entry of `sample_subtasks`
on `goal + " - " + subtask` and an Aggregator call on the formatted
results (non-atomic branch); finally the Verifier on the first 1000
characters of the final result. -/
def solve_with_roma (b : Backend) (goal : String) : RomaOutput :=
  let atomized := b.atomizer goal
  let is_atomic := parse_bool atomized.is_atomic
  if is_atomic then
    let final_result := b.executor goal
    let verification := b.verifier goal (pyTake final_result 1000)
    { goal := goal,
      steps := [Step.atomizerStep is_atomic, Step.executorStep final_result],
      final_result := final_result,
      is_valid := parse_bool verification.is_valid,
      subtask_results := [],
      calls := [Call.atomize goal, Call.execute goal,
                Call.verify goal (pyTake final_result 1000)] }
  else
    let planned := b.planner goal
    let subtask_results :=
      sample_subtasks.map fun st => (st, b.executor (goal ++ " - " ++ st))
    let formatted_results := formatResults subtask_results
    let final_result := b.aggregator goal formatted_results
    let verification := b.verifier goal (pyTake final_result 1000)
    { goal := goal,
      steps := [Step.atomizerStep is_atomic, Step.plannerStep planned.strategy],
      final_result := final_result,
      is_valid := parse_bool verification.is_valid,
      subtask_results := subtask_results,
      calls := [Call.atomize goal, Call.plan goal] ++
        (sample_subtasks.map fun st => Call.execute (goal ++ " - " ++ st)) ++
        [Call.aggregate goal formatted_results,
         Call.verify goal (pyTake final_result 1000)] }

def isExecuteCall : Call → Bool
  | .execute _ => true
  | _ => false

def isPlanCall : Call → Bool
  | .plan _ => true
  | _ => false

def isAggregateCall : Call → Bool
  | .aggregate _ _ => true
  | _ => false

def isVerifyCall : Call → Bool
  | .verify _ _ => true
  | _ => false

/-- Number of calls in a trace satisfying a predicate. -/
def countCalls (p : Call → Bool) (cs : List Call) : Nat := (cs.filter p).length

/-- A backend whose Atomizer requests decomposition and whose Planner
produces a single subtask. -/
def planOnlyBackend : Backend where
  atomizer := fun _ => ⟨"false", "needs planning"⟩
  planner := fun _ => ⟨["Estimate market size"], "single step"⟩
  executor := fun t => "result for " ++ t
  aggregator := fun _ _ => "aggregated"
  verifier := fun _ _ => ⟨"true", "ok"⟩

/-- A backend whose Atomizer requests decomposition and whose Planner
returns an empty subtask list. -/
def emptyPlanBackend : Backend where
  atomizer := fun _ => ⟨"false", "needs planning"⟩
  planner := fun _ => ⟨[], "no strategy"⟩
  executor := fun _ => "done"
  aggregator := fun _ _ => "synthesized"
  verifier := fun _ _ => ⟨"true", "ok"⟩

/-- A backend whose Atomizer answers that the goal is atomic. -/
def atomicBackend : Backend where
  atomizer := fun _ => ⟨"True, it is a direct question", "simple"⟩
  planner := fun _ => ⟨["unused"], "unused"⟩
  executor := fun t => "answer to " ++ t
  aggregator := fun _ _ => "unused"
  verifier := fun _ _ => ⟨"The result is false", "incomplete"⟩

/-- C5 counterexample: at goal `"Write a market report"` with a Planner
listing one subtask, Aggregate receives three {task, result} entries whose
tasks are the fixed sample subtasks, not the Planner's list — the entries
do not follow the subtasks listed by Plan. -/
theorem C5_order_counterexample :
    (solve_with_roma planOnlyBackend "Write a market report").subtask_results.map
        Prod.fst ≠
      (planOnlyBackend.planner "Write a market report").subtasks ∧
    (planOnlyBackend.planner "Write a market report").subtasks.length = 1 ∧
    (solve_with_roma planOnlyBackend "Write a market report").subtask_results.length = 3 := by
  refine ⟨by decide, by decide, by decide⟩

/-- C5 amended: in the non-atomic path the Aggregate stage receives the
{task, result} entries of the fixed `sample_subtasks` list, in its order
and always exactly 3 of them, regardless of the Planner's subtasks. -/
theorem C5_order_fixed_subtasks (b : Backend) (goal : String)
    (h : parse_bool (b.atomizer goal).is_atomic = false) :
    (solve_with_roma b goal).subtask_results =
      sample_subtasks.map (fun st => (st, b.executor (goal ++ " - " ++ st))) ∧
    (solve_with_roma b goal).subtask_results.length = 3 ∧
    Call.aggregate goal (formatResults (solve_with_roma b goal).subtask_results) ∈
      (solve_with_roma b goal).calls := by
  simp [solve_with_roma, h, sample_subtasks]

/-- C5 witness for the amended theorem, at a concrete backend and goal. -/
theorem C5_order_fixed_subtasks_witness :
    parse_bool (planOnlyBackend.atomizer "g").is_atomic = false ∧
    ((solve_with_roma planOnlyBackend "g").subtask_results =
      sample_subtasks.map (fun st => (st, planOnlyBackend.executor ("g" ++ " - " ++ st))) ∧
    (solve_with_roma planOnlyBackend "g").subtask_results.length = 3 ∧
    Call.aggregate "g" (formatResults (solve_with_roma planOnlyBackend "g").subtask_results) ∈
      (solve_with_roma planOnlyBackend "g").calls) :=
  ⟨by decide, C5_order_fixed_subtasks planOnlyBackend "g" (by decide)⟩

/-- C6 counterexample: with a Planner returning an empty subtask list,
the pipeline still calls Aggregate (once) and still produces a final
result — no failure, no skipped Aggregate. -/
theorem C6_empty_plan_counterexample :
    countCalls isAggregateCall (solve_with_roma emptyPlanBackend "goal").calls = 1 ∧
    (solve_with_roma emptyPlanBackend "goal").final_result = "synthesized" := by
  refine ⟨by decide, by decide⟩

/-- C6 amended: when Plan returns an empty subtask list the pipeline
ignores it, executes the fixed sample subtasks, calls Aggregate exactly
once, and produces the Aggregator's output as the final result. -/
theorem C6_empty_plan_proceeds (b : Backend) (goal : String)
    (ha : parse_bool (b.atomizer goal).is_atomic = false)
    (hp : (b.planner goal).subtasks = []) :
    countCalls isAggregateCall (solve_with_roma b goal).calls = 1 ∧
    (solve_with_roma b goal).final_result =
      b.aggregator goal (formatResults (sample_subtasks.map
        (fun st => (st, b.executor (goal ++ " - " ++ st))))) := by
  simp [solve_with_roma, ha, countCalls, sample_subtasks, isAggregateCall]

/-- C6 witness for the amended theorem. -/
theorem C6_empty_plan_proceeds_witness :
    (parse_bool (emptyPlanBackend.atomizer "goal").is_atomic = false ∧
      (emptyPlanBackend.planner "goal").subtasks = []) ∧
    (countCalls isAggregateCall (solve_with_roma emptyPlanBackend "goal").calls = 1 ∧
      (solve_with_roma emptyPlanBackend "goal").final_result =
        emptyPlanBackend.aggregator "goal" (formatResults (sample_subtasks.map
          (fun st => (st, emptyPlanBackend.executor ("goal" ++ " - " ++ st)))))) :=
  ⟨⟨by decide, by decide⟩, C6_empty_plan_proceeds emptyPlanBackend "goal" (by decide) (by decide)⟩

/-- C7: when the Atomizer answers atomic, the pipeline performs exactly
the calls Atomize, Execute (once, on the goal), Verify — no Plan and no
Aggregate — and the Executor's result is the final result handed to
Verify. -/
theorem C7_atomic_path (b : Backend) (goal : String)
    (h : parse_bool (b.atomizer goal).is_atomic = true) :
    (solve_with_roma b goal).calls =
      [Call.atomize goal, Call.execute goal,
       Call.verify goal (pyTake (b.executor goal) 1000)] ∧
    countCalls isExecuteCall (solve_with_roma b goal).calls = 1 ∧
    countCalls isPlanCall (solve_with_roma b goal).calls = 0 ∧
    countCalls isAggregateCall (solve_with_roma b goal).calls = 0 ∧
    (solve_with_roma b goal).final_result = b.executor goal := by
  simp [solve_with_roma, h, countCalls, isExecuteCall, isPlanCall, isAggregateCall]

/-- C7 witness at a concrete backend whose Atomizer answers atomic. -/
theorem C7_atomic_path_witness :
    parse_bool (atomicBackend.atomizer "What is 2+2?").is_atomic = true ∧
    ((solve_with_roma atomicBackend "What is 2+2?").calls =
      [Call.atomize "What is 2+2?", Call.execute "What is 2+2?",
       Call.verify "What is 2+2?" (pyTake (atomicBackend.executor "What is 2+2?") 1000)] ∧
    countCalls isExecuteCall (solve_with_roma atomicBackend "What is 2+2?").calls = 1 ∧
    countCalls isPlanCall (solve_with_roma atomicBackend "What is 2+2?").calls = 0 ∧
    countCalls isAggregateCall (solve_with_roma atomicBackend "What is 2+2?").calls = 0 ∧
    (solve_with_roma atomicBackend "What is 2+2?").final_result =
      atomicBackend.executor "What is 2+2?") :=
  ⟨by decide, C7_atomic_path atomicBackend "What is 2+2?" (by decide)⟩

/-- C8: the Verifier is called exactly once, its verdict is only recorded
in `is_valid`, and neither the final result text nor the call sequence
depends on the Verifier at all — no retry and no re-planning on an
invalid verdict, identical result text whether verification succeeds or
fails. -/
theorem C8_verify_no_retry (b b2 : Backend) (goal : String)
    (hat : b2.atomizer = b.atomizer) (hpl : b2.planner = b.planner)
    (hex : b2.executor = b.executor) (hag : b2.aggregator = b.aggregator) :
    countCalls isVerifyCall (solve_with_roma b goal).calls = 1 ∧
    (solve_with_roma b goal).is_valid =
      parse_bool (b.verifier goal
        (pyTake (solve_with_roma b goal).final_result 1000)).is_valid ∧
    (solve_with_roma b2 goal).final_result = (solve_with_roma b goal).final_result ∧
    (solve_with_roma b2 goal).calls = (solve_with_roma b goal).calls := by
  cases h : parse_bool (b.atomizer goal).is_atomic <;>
    simp [solve_with_roma, h, hat, hpl, hex, hag, countCalls, isVerifyCall,
      sample_subtasks]

/-- C8 witness: two backends differing only in the Verifier (one
accepting, one rejecting) produce the same final result and call trace. -/
theorem C8_verify_no_retry_witness :
    countCalls isVerifyCall (solve_with_roma atomicBackend "q").calls = 1 ∧
    (solve_with_roma atomicBackend "q").is_valid =
      parse_bool (atomicBackend.verifier "q"
        (pyTake (solve_with_roma atomicBackend "q").final_result 1000)).is_valid ∧
    (solve_with_roma
        { atomicBackend with verifier := fun _ _ => ⟨"true", "fine"⟩ }
        "q").final_result = (solve_with_roma atomicBackend "q").final_result ∧
    (solve_with_roma
        { atomicBackend with verifier := fun _ _ => ⟨"true", "fine"⟩ }
        "q").calls = (solve_with_roma atomicBackend "q").calls :=
  C8_verify_no_retry atomicBackend
    { atomicBackend with verifier := fun _ _ => ⟨"true", "fine"⟩ } "q" rfl rfl rfl rfl

/-- C9: resolution always terminates with a fixed, small number of
module calls — 3 on the atomic branch and 7 on the non-atomic branch —
for every backend, hence regardless of the Planner's output (even
subtasks identical to the goal); the demo performs exactly one level of
decomposition. -/
theorem C9_termination_bound (b : Backend) (goal : String) :
    (solve_with_roma b goal).calls.length =
      (if parse_bool (b.atomizer goal).is_atomic then 3 else 7) ∧
    (solve_with_roma b goal).calls.length ≤ 7 ∧
    countCalls isPlanCall (solve_with_roma b goal).calls ≤ 1 := by
  cases h : parse_bool (b.atomizer goal).is_atomic <;>
    simp [solve_with_roma, h, countCalls, isPlanCall, sample_subtasks]

/-- C10: in the non-atomic path, each Executor call runs on
`goal + " - " + subtask`; the Aggregator receives each subtask result cut
to its first 200 characters with `"..."` appended; the Verifier receives
the first 1000 characters of the final result; and the caller receives
the untruncated Aggregator output. -/
theorem C10_truncation (b : Backend) (goal : String)
    (h : parse_bool (b.atomizer goal).is_atomic = false) :
    (solve_with_roma b goal).calls.filter isExecuteCall =
      sample_subtasks.map (fun st => Call.execute (goal ++ " - " ++ st)) ∧
    Call.aggregate goal (String.intercalate "\n\n"
      (((sample_subtasks.map (fun st => (st, b.executor (goal ++ " - " ++ st)))).enum).map
        (fun p => "Subtarea " ++ toString (p.1 + 1) ++ ": " ++ p.2.1 ++
          "\nResultado: " ++ pyTake p.2.2 200 ++ "..."))) ∈
      (solve_with_roma b goal).calls ∧
    Call.verify goal (pyTake (solve_with_roma b goal).final_result 1000) ∈
      (solve_with_roma b goal).calls ∧
    (solve_with_roma b goal).final_result =
      b.aggregator goal (formatResults (sample_subtasks.map
        (fun st => (st, b.executor (goal ++ " - " ++ st))))) := by
  simp [solve_with_roma, h, formatResults, sample_subtasks, isExecuteCall]

/-- C10 witness, at a concrete backend and goal. -/
theorem C10_truncation_witness :
    parse_bool (planOnlyBackend.atomizer "report").is_atomic = false ∧
    ((solve_with_roma planOnlyBackend "report").calls.filter isExecuteCall =
      sample_subtasks.map (fun st => Call.execute ("report" ++ " - " ++ st)) ∧
    Call.aggregate "report" (String.intercalate "\n\n"
      (((sample_subtasks.map (fun st =>
          (st, planOnlyBackend.executor ("report" ++ " - " ++ st)))).enum).map
        (fun p => "Subtarea " ++ toString (p.1 + 1) ++ ": " ++ p.2.1 ++
          "\nResultado: " ++ pyTake p.2.2 200 ++ "..."))) ∈
      (solve_with_roma planOnlyBackend "report").calls ∧
    Call.verify "report" (pyTake (solve_with_roma planOnlyBackend "report").final_result 1000) ∈
      (solve_with_roma planOnlyBackend "report").calls ∧
    (solve_with_roma planOnlyBackend "report").final_result =
      planOnlyBackend.aggregator "report" (formatResults (sample_subtasks.map
        (fun st => (st, planOnlyBackend.executor ("report" ++ " - " ++ st)))))) :=
  ⟨by decide, C10_truncation planOnlyBackend "report" (by decide)⟩
